import Mathlib

/-!
Verification of the capture-to-detection pipeline of the ocr-card-scanner
repository.  The definitions below are a shallow embedding of the
TypeScript sources:

* `src/lib/utils.ts` — `preprocessImage`, `extractCardNumberRegion`;
* `src/hooks/useCardScanner.ts` — the `processFrame` tick (its inline
  card-number validation is factored out as `validateCard`);
* the four-tier `initWorker` of the OCR hook (`useOCR`), with its
  `checkUrlAccessibility` probe, bounded retry and unmount handling.

Machine-level details are modelled as follows: pixel channels and frame
dimensions are `Nat`; the OCR confidence is `ℚ` (the source compares a
finite decimal against the integer literal 60, which is exact in `ℚ`); the
luma computation of the preprocessor is embedded at IEEE-754 double
precision via exact scaled-integer arithmetic (see the preprocessing
section); asynchronous browser callbacks (probe results, constructor
results, `toBlob` results, mounted-ness at completion time) are supplied
through explicit environment records, and fallible code returns
`Except`/`Option`.
-/

/-! ## Character classes used by the validator regular expression

The source matches `text.match(/(\d{4}\s?\d{4}\s?\d{4}\s?\d{4})/)` and then
strips whitespace with `replace(/\s/g, "")`.  `\d` is `[0-9]`; `\s` is the
ECMAScript WhiteSpace ∪ LineTerminator class, reproduced literally below.
-/

def isDigitChar (c : Char) : Bool := c.isDigit

def isSpaceJS (c : Char) : Bool :=
  c == ' ' || c == '\t' || c == '\n' || c == '\x0b' || c == '\x0c' || c == '\r' ||
  c == '\u00A0' || c == '\u1680' || c == '\u2000' || c == '\u2001' || c == '\u2002' ||
  c == '\u2003' || c == '\u2004' || c == '\u2005' || c == '\u2006' || c == '\u2007' ||
  c == '\u2008' || c == '\u2009' || c == '\u200A' || c == '\u2028' || c == '\u2029' ||
  c == '\u202F' || c == '\u205F' || c == '\u3000' || c == '\uFEFF'

/-! ## The validator pattern matcher

`takeBlock` consumes `\d{4}`, `takeSep` consumes `\s?`.  Because `\s?` is
followed by `\d` in the pattern, the greedy optional whitespace never needs
backtracking: consuming a present whitespace character is equivalent to the
regex search.  `matchCardAt` matches the pattern anchored at the head of the
list, `findCardMatch` performs the leftmost search done by `String.match`.
-/

def takeBlock : List Char → Option (List Char × List Char)
  | c1 :: c2 :: c3 :: c4 :: rest =>
    if isDigitChar c1 && isDigitChar c2 && isDigitChar c3 && isDigitChar c4 then
      some ([c1, c2, c3, c4], rest)
    else
      none
  | _ => none

def takeSep : List Char → (List Char × List Char)
  | [] => ([], [])
  | c :: rest => if isSpaceJS c then ([c], rest) else ([], c :: rest)

def matchCardAt (l : List Char) : Option (List Char) :=
  match takeBlock l with
  | none => none
  | some (b1, r1) =>
    match takeSep r1 with
    | (s1, r1') =>
      match takeBlock r1' with
      | none => none
      | some (b2, r2) =>
        match takeSep r2 with
        | (s2, r2') =>
          match takeBlock r2' with
          | none => none
          | some (b3, r3) =>
            match takeSep r3 with
            | (s3, r3') =>
              match takeBlock r3' with
              | none => none
              | some (b4, _) =>
                some (b1 ++ (s1 ++ (b2 ++ (s2 ++ (b3 ++ (s3 ++ b4))))))

def findCardMatch : List Char → Option (List Char)
  | [] => none
  | c :: rest =>
    match matchCardAt (c :: rest) with
    | some m => some m
    | none => findCardMatch rest

/-- The `replace(/\s/g, "")` step of the source. -/
def stripWs (l : List Char) : List Char := l.filter (fun c => !(isSpaceJS c))

/-- Validation step of `processFrame` (useCardScanner.ts:141–151): search the
recognized text for the card-number pattern; on a match with confidence
strictly above 60 strip whitespace and accept only a 16-character digit
string. -/
def validateCard (text : List Char) (confidence : ℚ) : Option (List Char) :=
  match findCardMatch text with
  | none => none
  | some m =>
    if 60 < confidence then
      let cardNumber := stripWs m
      if cardNumber.length = 16 then some cardNumber else none
    else
      none

/-! ## Image preprocessing (utils.ts: `preprocessImage`)

The source iterates over the flat RGBA byte array of the canvas in steps of
four, writing the enhanced grayscale value into the three color channels and
leaving the alpha channel untouched.

The luma `0.299 * data[i] + 0.587 * data[i + 1] + 0.114 * data[i + 2]` is
computed by the program in IEEE-754 double precision: each decimal literal
denotes the nearest double, each multiplication and each addition (in
left-to-right evaluation order) rounds its exact result to the nearest
double (ties to even), and `Math.round` then rounds the exact value of the
resulting double half-up (the ECMA definition is exact, not a float
`x + 0.5`).  At exact `.5` ties of the decimal formula the double sum can
fall just below the tie, so the program can round one lower than exact
rational arithmetic would.

Every double arising here is a non-negative dyadic rational with value
`n / 2^60` (the coarsest ulp involved is `2^(7-52) = 2^-45` and the finest
is `2^(-4-52) = 2^-56`), so the computation is embedded exactly over `ℕ`
scaled by `2^60`.  Channel values come from a `Uint8ClampedArray`, hence lie
in 0..255 and convert to doubles exactly. -/

structure Pixel where
  r : ℕ
  g : ℕ
  b : ℕ
  a : ℕ
deriving Repr, DecidableEq

/-- Fuel-driven `⌊log2 n⌋` (0 for `n = 0`); the fuel is instantiated with
`n` itself, which bounds the recursion depth. -/
def natLog2F : ℕ → ℕ → ℕ
  | 0, _ => 0
  | fuel + 1, n => if n ≤ 1 then 0 else natLog2F fuel (n / 2) + 1

/-- Round `a / b` to the nearest integer, ties to even. -/
def roundDivEven (a b : ℕ) : ℕ :=
  let q := a / b
  let r := a % b
  if 2 * r < b then q
  else if b < 2 * r then q + 1
  else if q % 2 = 0 then q else q + 1

/-- IEEE-754 round-to-nearest-even of the non-negative value `n / 2^60` to a
double, returned on the same `2^60` scale: the value is snapped to the
53-bit mantissa grid of its binade.  (Values below `2^-7` would be exact on
this scale already; no such value occurs in the luma computation.) -/
def dyFl (n : ℕ) : ℕ :=
  if n = 0 then 0
  else
    let e := natLog2F n n
    if e ≤ 52 then n
    else
      let u := 2 ^ (e - 52)
      roundDivEven n u * u

/-- The double denoted by the literal `0.299` (value on the `2^60` scale):
`0.299 ∈ [2^-2, 2^-1)`, so its ulp is `2^-54`. -/
def c299n : ℕ := roundDivEven (299 * 2 ^ 54) 1000 * 2 ^ 6

/-- The double denoted by the literal `0.587`: `0.587 ∈ [2^-1, 1)`, ulp `2^-53`. -/
def c587n : ℕ := roundDivEven (587 * 2 ^ 53) 1000 * 2 ^ 7

/-- The double denoted by the literal `0.114`: `0.114 ∈ [2^-4, 2^-3)`, ulp `2^-56`. -/
def c114n : ℕ := roundDivEven (114 * 2 ^ 56) 1000 * 2 ^ 4

/-- The double computed by
`0.299 * data[i] + 0.587 * data[i + 1] + 0.114 * data[i + 2]`
(left-to-right: each product and each sum rounded to nearest double), on the
`2^60` scale. -/
def jsLumaScaled (r g b : ℕ) : ℕ :=
  dyFl (dyFl (dyFl (c299n * r) + dyFl (c587n * g)) + dyFl (c114n * b))

/-- The program gray value: `Math.round` — exact half-up rounding — of the
double-precision luma; `⌊v + 1/2⌋ = (2 * (v·2^60) + 2^60) / 2^61` on
naturals. -/
def grayOf (r g b : ℕ) : ℕ :=
  (2 * jsLumaScaled r g b + 2 ^ 60) / 2 ^ 61

/-- The contrast stretch
`gray < 128 ? Math.max(0, gray - 50) : Math.min(255, gray + 50)`
(on `ℕ`, truncated subtraction is `Math.max(0, · - 50)`). -/
def enhanceGray (gray : ℕ) : ℕ :=
  if gray < 128 then gray - 50 else min 255 (gray + 50)

/-- The loop of `preprocessImage` over the flat RGBA data array (`i += 4`;
`ImageData` arrays always have length a multiple of four). -/
def preprocessImage : List ℕ → List ℕ
  | r :: g :: b :: a :: rest =>
    let e := enhanceGray (grayOf r g b)
    e :: e :: e :: a :: preprocessImage rest
  | other => other

/-- Flat RGBA view of a pixel raster, as `getImageData` exposes it. -/
def flattenRaster : List Pixel → List ℕ
  | [] => []
  | p :: ps => p.r :: p.g :: p.b :: p.a :: flattenRaster ps

/-- Mathematical round-half-up, as claim C6 words it ("rounded to nearest
integer"): exact rational arithmetic, no floating point. -/
def jsRound (q : ℚ) : ℤ := ⌊q + 1/2⌋

/-- Pixel-level transform written from the words of claim C6 and of the
specification: g = round(0.299·R + 0.587·G + 0.114·B) computed exactly;
e = max(0, g − 50) for g < 128 and min(255, g + 50) for g ≥ 128; all three
channels set to e.  The program disagrees with this exact formula at
floating-point ties (see the C6 counterexample). -/
def specPreprocessPixel (p : Pixel) : Pixel :=
  let g := (jsRound ((0.299 : ℚ) * p.r + (0.587 : ℚ) * p.g + (0.114 : ℚ) * p.b)).toNat
  let e := if g < 128 then g - 50 else min 255 (g + 50)
  ⟨e, e, e, p.a⟩

/-- Pixel-level transform as the amended claim C6 states it: the gray value
is the `Math.round` of the double-precision luma (`grayOf`), and the three
color channels receive the contrast-stretched value. -/
def flPreprocessPixel (p : Pixel) : Pixel :=
  let g := grayOf p.r p.g p.b
  let e := if g < 128 then g - 50 else min 255 (g + 50)
  ⟨e, e, e, p.a⟩

/-- ECMAScript `String.prototype.startsWith` (embedded over the character
lists of the strings). -/
def jsStartsWith (s p : String) : Bool := p.data.isPrefixOf s.data

/-! ## Region extraction (utils.ts: `extractCardNumberRegion`)

Frame dimensions are natural numbers; `Math.floor(h * 0.3)` and
`Math.floor(h * 0.4)` are `3*h/10` and `4*h/10` in natural division (exact
for every representable frame height, since the double rounding error of
`0.3`/`0.4` is far below the distance to the nearest integer crossing). -/

structure CardRegion where
  width : ℕ
  y : ℕ
  height : ℕ
deriving Repr, DecidableEq

def extractCardNumberRegion (w h : ℕ) : Except String CardRegion :=
  if w = 0 || h = 0 then
    .error "Invalid canvas provided to extractCardNumberRegion"
  else
    let regionHeight := max 1 (3 * h / 10)
    let regionY := 4 * h / 10
    let finalHeight :=
      if regionY + regionHeight > h then max 1 (h - regionY) else regionHeight
    .ok ⟨w, regionY, finalHeight⟩

/-! ## The scan tick (useCardScanner.ts: `processFrame`)

One timer tick of the scan loop.  The browser-supplied outcomes of the
asynchronous steps are an explicit environment: whether the element refs and
the OCR worker are present, the video readiness and dimensions, whether
region extraction throws, whether `canvas.toBlob` delivers a blob (`none`
models a `null` blob), and the recognition result. -/

structure DetectedCard where
  number : List Char
  confidence : ℚ
  timestamp : ℕ
deriving DecidableEq

structure ScanState where
  isProcessing : Bool
  detectedCard : Option DetectedCard
deriving DecidableEq

structure TickEnv where
  refsPresent : Bool
  workerPresent : Bool
  readyState : ℕ
  videoWidth : ℕ
  videoHeight : ℕ
  extractionThrows : Bool
  blobResult : Option Unit
  recognition : Except Unit (List Char × ℚ)
  now : ℕ

def processFrame (env : TickEnv) (s : ScanState) : ScanState :=
  -- early return: missing refs, missing worker, or busy guard set
  if !env.refsPresent || !env.workerPresent || s.isProcessing then s
  -- early return: video not ready or zero-dimension frame
  else if env.readyState < 2 || env.videoWidth == 0 || env.videoHeight == 0 then s
  else
    -- setIsProcessing(true); canvas takes the video dimensions
    if env.videoWidth == 0 || env.videoHeight == 0 then
      { s with isProcessing := false }
    else if env.extractionThrows then
      -- caught: log and clear the guard
      { s with isProcessing := false }
    else
      match env.blobResult with
      | none =>
        -- `toBlob` callback receives null and returns: the guard stays set
        { s with isProcessing := true }
      | some _ =>
        match env.recognition with
        | .error _ => { s with isProcessing := false }
        | .ok (text, confidence) =>
          match validateCard text confidence with
          | some num =>
            { isProcessing := false,
              detectedCard := some ⟨num, confidence, env.now⟩ }
          | none => { s with isProcessing := false }

/-! ## The OCR engine manager (`initWorker` of the four-tier useOCR hook)

The ordered fallback configuration list, the tier selection
`Math.min(ocrRetryCount, workerConfigs.length - 1)`, the
`checkUrlAccessibility` probes for scheme-qualified paths, the bounded
auto-retry with a 2000 ms backoff, and the unmount check on a late
construction success. -/

structure WorkerConfig where
  name : String
  workerPath : Option String
  corePath : Option String
  langPath : Option String
deriving DecidableEq, Repr

def workerConfigs : List WorkerConfig :=
  [ { name := "Local WASM files",
      workerPath := some "/wasm/worker.min.js",
      corePath := some "/wasm/tesseract-core-simd.wasm.js",
      langPath := none },
    { name := "jsDelivr CDN",
      workerPath := some "https://cdn.jsdelivr.net/npm/tesseract.js@5/dist/worker.min.js",
      corePath := some "https://cdn.jsdelivr.net/npm/tesseract.js-core@5/tesseract-core-simd.wasm.js",
      langPath := some "https://cdn.jsdelivr.net/npm/tesseract.js-core@5/lang-data/" },
    { name := "unpkg CDN",
      workerPath := some "https://unpkg.com/tesseract.js@5/dist/worker.min.js",
      corePath := some "https://unpkg.com/tesseract.js-core@5/tesseract-core-simd.wasm.js",
      langPath := some "https://unpkg.com/tesseract.js-core@5/lang-data/" },
    { name := "Default bundled",
      workerPath := none,
      corePath := none,
      langPath := none } ]

def selectedTierIndex (r : ℕ) : ℕ := min r (workerConfigs.length - 1)

def selectedConfig (r : ℕ) : WorkerConfig :=
  (workerConfigs.get? (selectedTierIndex r)).getD ⟨"", none, none, none⟩

structure OCRModelState where
  tesseractWorker : Option ℕ
  isInitializingOCR : Bool
  ocrRetryCount : ℕ
  error : String
deriving DecidableEq, Repr

structure InitEnv where
  -- result of `checkUrlAccessibility` for each URL
  checkUrlAccessibility : String → Bool
  -- result of `Tesseract.createWorker`, were it to be invoked
  construction : Except String ℕ
  -- whether the component is still mounted when the attempt completes
  isMounted : Bool

structure InitResult where
  state : OCRModelState
  probedUrls : List String
  constructorInvoked : Bool
  scheduledRetryDelayMs : Option ℕ
  workerTerminated : Bool
deriving Repr

def terminalErrorMessage (r : ℕ) (msg : String) : String :=
  "Failed to initialize OCR engine after " ++ toString (r + 1) ++ " attempts: " ++ msg

def probeFailureMessage (wOk cOk : Bool) : String :=
  "CDN files not accessible (worker: " ++ toString wOk ++ ", core: " ++ toString cOk ++ ")"

/-- The catch block of `initWorker` (part_000:148–176): auto-retry with a
2000 ms backoff while `ocrRetryCount < 3`, otherwise surface the terminal
error; nothing happens when the component is unmounted. -/
def handleInitFailure (env : InitEnv) (s1 : OCRModelState) (r : ℕ) (msg : String)
    (probed : List String) (invoked : Bool) : InitResult :=
  if env.isMounted then
    if r < 3 then
      ⟨s1, probed, invoked, some 2000, false⟩
    else
      ⟨{ s1 with error := terminalErrorMessage r msg, isInitializingOCR := false },
        probed, invoked, none, false⟩
  else
    ⟨s1, probed, invoked, none, false⟩

/-- Invocation of `Tesseract.createWorker` and the mounted check (part_000:136–147): a
success installs the handle while mounted and terminates it otherwise; a
construction error goes to the catch block. -/
def runConstruction (env : InitEnv) (s1 : OCRModelState) (r : ℕ)
    (probed : List String) : InitResult :=
  match env.construction with
  | .ok handle =>
    if env.isMounted then
      ⟨{ s1 with tesseractWorker := some handle, isInitializingOCR := false },
        probed, true, none, false⟩
    else
      ⟨s1, probed, true, none, true⟩
  | .error msg => handleInitFailure env s1 r msg probed true

/-- One initialization attempt (part_000:37–177): clear the error, mark
initializing, select the tier by `min(retryCount, tierCount-1)`, probe the
worker and core URLs when the worker path is scheme-qualified, and construct
the backend only if no probe failed. -/
def initWorker (env : InitEnv) (s : OCRModelState) : InitResult :=
  let s1 := { s with error := "", isInitializingOCR := true }
  let r := s.ocrRetryCount
  let cfg := selectedConfig r
  match cfg.workerPath with
  | some wp =>
    if jsStartsWith wp "http" then
      let wOk := env.checkUrlAccessibility wp
      let cOk := env.checkUrlAccessibility (cfg.corePath.getD "")
      let probed := [wp, cfg.corePath.getD ""]
      if wOk && cOk then runConstruction env s1 r probed
      else handleInitFailure env s1 r (probeFailureMessage wOk cOk) probed false
    else runConstruction env s1 r []
  | none => runConstruction env s1 r []

/-- Firing of the scheduled `setTimeout` backoff: increment the retry count
(which re-triggers the initialization effect). -/
def fireScheduledRetry (s : OCRModelState) : OCRModelState :=
  { s with ocrRetryCount := s.ocrRetryCount + 1 }

/-! ## Specification-side predicates

`HasCardPattern` is written from the words of the specification and of claim
C1: the text contains a 16-digit run grouped as four blocks of four digits
with at most one single whitespace character between consecutive blocks. -/

def IsBlock (b : List Char) : Prop :=
  b.length = 4 ∧ ∀ c ∈ b, isDigitChar c = true

def IsSep (s : List Char) : Prop :=
  s = [] ∨ ∃ c, s = [c] ∧ isSpaceJS c = true

def HasCardPattern (t : List Char) : Prop :=
  ∃ pre b1 s1 b2 s2 b3 s3 b4 post,
    t = pre ++ (b1 ++ (s1 ++ (b2 ++ (s2 ++ (b3 ++ (s3 ++ (b4 ++ post))))))) ∧
    IsBlock b1 ∧ IsSep s1 ∧ IsBlock b2 ∧ IsSep s2 ∧ IsBlock b3 ∧ IsSep s3 ∧ IsBlock b4

/-! ## Lemmas about the pattern matcher -/

theorem space_not_digit (c : Char) (hs : isSpaceJS c = true) : isDigitChar c = false := by
  simp only [isSpaceJS, Bool.or_eq_true, beq_iff_eq] at hs
  rcases hs with ((((((((((((((((((((((((rfl|rfl)|rfl)|rfl)|rfl)|rfl)|rfl)|rfl)|rfl)|rfl)|rfl)|rfl)|rfl)|rfl)|rfl)|rfl)|rfl)|rfl)|rfl)|rfl)|rfl)|rfl)|rfl)|rfl)|rfl) <;> decide

theorem digit_not_space (c : Char) (hd : isDigitChar c = true) : isSpaceJS c = false := by
  cases hsp : isSpaceJS c with
  | false => rfl
  | true => rw [space_not_digit c hsp] at hd; cases hd

theorem exists_four {l : List Char} (h : l.length = 4) :
    ∃ a b c d, l = [a, b, c, d] := by
  match l with
  | [a, b, c, d] => exact ⟨a, b, c, d, rfl⟩
  | [] | [_] | [_, _] | [_, _, _] => simp at h
  | _ :: _ :: _ :: _ :: _ :: _ => simp only [List.length_cons] at h; omega

theorem takeBlock_sound {l b r : List Char} (h : takeBlock l = some (b, r)) :
    l = b ++ r ∧ IsBlock b := by
  match l with
  | [] | [_] | [_, _] | [_, _, _] => simp [takeBlock] at h
  | c1 :: c2 :: c3 :: c4 :: rest =>
    simp only [takeBlock] at h
    split at h
    · rename_i hd
      simp only [Option.some.injEq, Prod.mk.injEq] at h
      obtain ⟨rfl, rfl⟩ := h
      simp only [Bool.and_eq_true] at hd
      refine ⟨rfl, rfl, ?_⟩
      intro c hc
      simp only [List.mem_cons, List.not_mem_nil, or_false] at hc
      rcases hc with rfl | rfl | rfl | rfl
      · exact hd.1.1.1
      · exact hd.1.1.2
      · exact hd.1.2
      · exact hd.2
    · cases h

theorem takeBlock_prefix {b : List Char} (r : List Char) (hb : IsBlock b) :
    takeBlock (b ++ r) = some (b, r) := by
  obtain ⟨c1, c2, c3, c4, rfl⟩ := exists_four hb.1
  have h1 := hb.2 c1 (by simp)
  have h2 := hb.2 c2 (by simp)
  have h3 := hb.2 c3 (by simp)
  have h4 := hb.2 c4 (by simp)
  simp [takeBlock, h1, h2, h3, h4]

theorem takeSep_sound {l s r : List Char} (h : takeSep l = (s, r)) :
    l = s ++ r ∧ IsSep s := by
  match l with
  | [] =>
    simp only [takeSep, Prod.mk.injEq] at h
    obtain ⟨rfl, rfl⟩ := h
    exact ⟨rfl, Or.inl rfl⟩
  | c :: rest =>
    simp only [takeSep] at h
    split at h
    · rename_i hsp
      simp only [Prod.mk.injEq] at h
      obtain ⟨rfl, rfl⟩ := h
      exact ⟨rfl, Or.inr ⟨c, rfl, hsp⟩⟩
    · rename_i hsp
      simp only [Prod.mk.injEq] at h
      obtain ⟨rfl, rfl⟩ := h
      exact ⟨rfl, Or.inl rfl⟩

theorem takeSep_not_space_head {l : List Char}
    (h : ∀ c, l.head? = some c → isSpaceJS c = false) : takeSep l = ([], l) := by
  match l with
  | [] => rfl
  | c :: rest => simp [takeSep, h c rfl]

/-- In the pattern, every optional separator is followed by a digit block, so
the greedy single-whitespace consumption is deterministic. -/
theorem takeSep_sep_before_block {s b : List Char} (y : List Char)
    (hs : IsSep s) (hb : IsBlock b) :
    takeSep (s ++ (b ++ y)) = (s, b ++ y) := by
  rcases hs with rfl | ⟨c, rfl, hc⟩
  · obtain ⟨c1, c2, c3, c4, rfl⟩ := exists_four hb.1
    have hd := hb.2 c1 (by simp)
    simp only [List.nil_append]
    exact takeSep_not_space_head (by
      intro c hc
      simp only [List.cons_append, List.head?_cons, Option.some.injEq] at hc
      subst hc
      exact digit_not_space _ hd)
  · simp [takeSep, hc]

theorem matchCardAt_append {b1 s1 b2 s2 b3 s3 b4 : List Char} (rest : List Char)
    (hb1 : IsBlock b1) (hs1 : IsSep s1) (hb2 : IsBlock b2) (hs2 : IsSep s2)
    (hb3 : IsBlock b3) (hs3 : IsSep s3) (hb4 : IsBlock b4) :
    matchCardAt (b1 ++ (s1 ++ (b2 ++ (s2 ++ (b3 ++ (s3 ++ (b4 ++ rest))))))) =
      some (b1 ++ (s1 ++ (b2 ++ (s2 ++ (b3 ++ (s3 ++ b4)))))) := by
  simp only [matchCardAt, takeBlock_prefix, takeSep_sep_before_block,
    hb1, hs1, hb2, hs2, hb3, hs3, hb4]

theorem matchCardAt_sound {l m : List Char} (h : matchCardAt l = some m) :
    ∃ b1 s1 b2 s2 b3 s3 b4 rest,
      l = b1 ++ (s1 ++ (b2 ++ (s2 ++ (b3 ++ (s3 ++ (b4 ++ rest)))))) ∧
      m = b1 ++ (s1 ++ (b2 ++ (s2 ++ (b3 ++ (s3 ++ b4))))) ∧
      IsBlock b1 ∧ IsSep s1 ∧ IsBlock b2 ∧ IsSep s2 ∧ IsBlock b3 ∧ IsSep s3 ∧ IsBlock b4 := by
  unfold matchCardAt at h
  cases e1 : takeBlock l with
  | none => simp only [e1] at h; cases h
  | some p1 =>
    obtain ⟨b1, r1⟩ := p1
    simp only [e1] at h
    obtain ⟨hl1, hB1⟩ := takeBlock_sound e1
    cases e2 : takeSep r1 with
    | mk s1 r2 =>
      simp only [e2] at h
      obtain ⟨hl2, hS1⟩ := takeSep_sound e2
      cases e3 : takeBlock r2 with
      | none => simp only [e3] at h; cases h
      | some p2 =>
        obtain ⟨b2, r3⟩ := p2
        simp only [e3] at h
        obtain ⟨hl3, hB2⟩ := takeBlock_sound e3
        cases e4 : takeSep r3 with
        | mk s2 r4 =>
          simp only [e4] at h
          obtain ⟨hl4, hS2⟩ := takeSep_sound e4
          cases e5 : takeBlock r4 with
          | none => simp only [e5] at h; cases h
          | some p3 =>
            obtain ⟨b3, r5⟩ := p3
            simp only [e5] at h
            obtain ⟨hl5, hB3⟩ := takeBlock_sound e5
            cases e6 : takeSep r5 with
            | mk s3 r6 =>
              simp only [e6] at h
              obtain ⟨hl6, hS3⟩ := takeSep_sound e6
              cases e7 : takeBlock r6 with
              | none => simp only [e7] at h; cases h
              | some p4 =>
                obtain ⟨b4, r7⟩ := p4
                simp only [e7] at h
                obtain ⟨hl7, hB4⟩ := takeBlock_sound e7
                simp only [Option.some.injEq] at h
                subst hl7; subst hl6; subst hl5; subst hl4; subst hl3
                subst hl2; subst hl1
                exact ⟨b1, s1, b2, s2, b3, s3, b4, r7, rfl, h.symm,
                  hB1, hS1, hB2, hS2, hB3, hS3, hB4⟩

theorem matchCardAt_nil : matchCardAt ([] : List Char) = none := rfl

theorem findCardMatch_sound {t m : List Char} (h : findCardMatch t = some m) :
    ∃ pre suf, t = pre ++ suf ∧ matchCardAt suf = some m := by
  induction t with
  | nil => simp [findCardMatch] at h
  | cons c rest ih =>
    rw [findCardMatch] at h
    cases hm : matchCardAt (c :: rest) with
    | some m' =>
      rw [hm] at h
      simp only [Option.some.injEq] at h
      exact ⟨[], c :: rest, rfl, by rw [hm, h]⟩
    | none =>
      rw [hm] at h
      obtain ⟨pre, suf, rfl, hsuf⟩ := ih h
      exact ⟨c :: pre, suf, rfl, hsuf⟩

theorem findCardMatch_isSome_of_suffix {suf m : List Char} (pre : List Char)
    (h : matchCardAt suf = some m) : (findCardMatch (pre ++ suf)).isSome = true := by
  induction pre with
  | nil =>
    cases suf with
    | nil => rw [matchCardAt_nil] at h; cases h
    | cons c r => simp only [List.nil_append, findCardMatch]; rw [h]; rfl
  | cons c pre ih =>
    simp only [List.cons_append, findCardMatch]
    cases hm : matchCardAt (c :: (pre ++ suf)) with
    | some m' => rfl
    | none => exact ih

theorem stripWs_block {b : List Char} (hb : IsBlock b) : stripWs b = b := by
  unfold stripWs
  rw [List.filter_eq_self]
  intro c hc
  simp [digit_not_space c (hb.2 c hc)]

theorem stripWs_sep {s : List Char} (hs : IsSep s) : stripWs s = [] := by
  rcases hs with rfl | ⟨c, rfl, hc⟩
  · rfl
  · simp [stripWs, hc]

theorem stripWs_matched {l m : List Char} (h : matchCardAt l = some m) :
    (stripWs m).length = 16 := by
  obtain ⟨b1, s1, b2, s2, b3, s3, b4, rest, _, rfl, hB1, hS1, hB2, hS2, hB3, hS3, hB4⟩ :=
    matchCardAt_sound h
  have hstrip : stripWs (b1 ++ (s1 ++ (b2 ++ (s2 ++ (b3 ++ (s3 ++ b4)))))) =
      b1 ++ (b2 ++ (b3 ++ b4)) := by
    unfold stripWs
    simp only [List.filter_append]
    change stripWs b1 ++ (stripWs s1 ++ (stripWs b2 ++ (stripWs s2 ++
      (stripWs b3 ++ (stripWs s3 ++ stripWs b4))))) = _
    rw [stripWs_block hB1, stripWs_sep hS1, stripWs_block hB2, stripWs_sep hS2,
      stripWs_block hB3, stripWs_sep hS3, stripWs_block hB4]
    simp
  rw [hstrip]
  simp [List.length_append, hB1.1, hB2.1, hB3.1, hB4.1]

theorem hasCardPattern_iff_findSome {t : List Char} :
    HasCardPattern t ↔ (findCardMatch t).isSome = true := by
  constructor
  · rintro ⟨pre, b1, s1, b2, s2, b3, s3, b4, post, rfl,
      hB1, hS1, hB2, hS2, hB3, hS3, hB4⟩
    exact findCardMatch_isSome_of_suffix pre
      (matchCardAt_append post hB1 hS1 hB2 hS2 hB3 hS3 hB4)
  · intro h
    obtain ⟨m, hm⟩ := Option.isSome_iff_exists.mp h
    obtain ⟨pre, suf, rfl, hsuf⟩ := findCardMatch_sound hm
    obtain ⟨b1, s1, b2, s2, b3, s3, b4, rest, rfl, _, hB1, hS1, hB2, hS2, hB3, hS3, hB4⟩ :=
      matchCardAt_sound hsuf
    exact ⟨pre, b1, s1, b2, s2, b3, s3, b4, rest, rfl,
      hB1, hS1, hB2, hS2, hB3, hS3, hB4⟩

theorem validateCard_isSome_iff {t : List Char} {c : ℚ} :
    (validateCard t c).isSome = true ↔ HasCardPattern t ∧ 60 < c := by
  unfold validateCard
  cases hf : findCardMatch t with
  | none =>
    simp only [Option.isSome_none, Bool.false_eq_true, false_iff, not_and]
    intro hp
    rw [hasCardPattern_iff_findSome, hf] at hp
    cases hp
  | some m =>
    obtain ⟨pre, suf, rfl, hsuf⟩ := findCardMatch_sound hf
    have hlen : (stripWs m).length = 16 := stripWs_matched hsuf
    have hp : HasCardPattern (pre ++ suf) := by
      rw [hasCardPattern_iff_findSome, hf]; rfl
    by_cases hc : 60 < c
    · simp [hc, hlen, hp]
    · simp [hc, hp]

theorem findCardMatch_head_some {t m : List Char} (h : matchCardAt t = some m) :
    findCardMatch t = some m := by
  cases t with
  | nil => rw [matchCardAt_nil] at h; cases h
  | cons c r => simp only [findCardMatch, h]

/-! ## Lemmas about preprocessing -/

theorem enhanceGray_le (g : ℕ) : enhanceGray g ≤ 255 := by
  unfold enhanceGray
  split_ifs <;> omega

set_option maxRecDepth 4000 in
/-- On every value the contrast stretch can produce (0..255, in fact on all
of 0..255), the double-precision luma of a uniform gray pixel rounds back to
that value: the accumulated rounding error is far below one half. -/
theorem grayOf_uniform : ∀ e : ℕ, e ≤ 255 → grayOf e e e = e := by decide

theorem grayOf_enhance (g : ℕ) :
    grayOf (enhanceGray g) (enhanceGray g) (enhanceGray g) = enhanceGray g :=
  grayOf_uniform _ (enhanceGray_le g)

theorem enhanceGray_fix_iff (g : ℕ) :
    enhanceGray (enhanceGray g) = enhanceGray g ↔ g ≤ 50 ∨ 205 ≤ g := by
  unfold enhanceGray
  split_ifs <;> omega

/-! ## Lemmas about the engine manager model -/

theorem handleInitFailure_probed (env : InitEnv) (s1 : OCRModelState) (r : ℕ)
    (msg : String) (probed : List String) (invoked : Bool) :
    (handleInitFailure env s1 r msg probed invoked).probedUrls = probed := by
  unfold handleInitFailure; split_ifs <;> rfl

theorem handleInitFailure_invoked (env : InitEnv) (s1 : OCRModelState) (r : ℕ)
    (msg : String) (probed : List String) (invoked : Bool) :
    (handleInitFailure env s1 r msg probed invoked).constructorInvoked = invoked := by
  unfold handleInitFailure; split_ifs <;> rfl

theorem runConstruction_probed (env : InitEnv) (s1 : OCRModelState) (r : ℕ)
    (probed : List String) :
    (runConstruction env s1 r probed).probedUrls = probed := by
  unfold runConstruction
  cases env.construction with
  | ok h => split_ifs <;> rfl
  | error msg => exact handleInitFailure_probed ..

theorem runConstruction_invoked (env : InitEnv) (s1 : OCRModelState) (r : ℕ)
    (probed : List String) :
    (runConstruction env s1 r probed).constructorInvoked = true := by
  unfold runConstruction
  cases env.construction with
  | ok h => split_ifs <;> rfl
  | error msg => exact handleInitFailure_invoked ..

theorem runConstruction_unmounted (env : InitEnv) (s1 : OCRModelState) (r : ℕ)
    (probed : List String) (handle : ℕ)
    (hum : env.isMounted = false) (hok : env.construction = .ok handle) :
    runConstruction env s1 r probed = ⟨s1, probed, true, none, true⟩ := by
  unfold runConstruction
  rw [hok]
  simp [hum]

theorem selectedConfig_cases (r : ℕ) :
    selectedConfig r = ⟨"Local WASM files", some "/wasm/worker.min.js",
        some "/wasm/tesseract-core-simd.wasm.js", none⟩
    ∨ selectedConfig r = ⟨"jsDelivr CDN",
        some "https://cdn.jsdelivr.net/npm/tesseract.js@5/dist/worker.min.js",
        some "https://cdn.jsdelivr.net/npm/tesseract.js-core@5/tesseract-core-simd.wasm.js",
        some "https://cdn.jsdelivr.net/npm/tesseract.js-core@5/lang-data/"⟩
    ∨ selectedConfig r = ⟨"unpkg CDN",
        some "https://unpkg.com/tesseract.js@5/dist/worker.min.js",
        some "https://unpkg.com/tesseract.js-core@5/tesseract-core-simd.wasm.js",
        some "https://unpkg.com/tesseract.js-core@5/lang-data/"⟩
    ∨ selectedConfig r = ⟨"Default bundled", none, none, none⟩ := by
  unfold selectedConfig selectedTierIndex
  have h4 : workerConfigs.length - 1 = 3 := rfl
  rw [h4]
  have : min r 3 = 0 ∨ min r 3 = 1 ∨ min r 3 = 2 ∨ min r 3 = 3 := by omega
  rcases this with h | h | h | h <;> rw [h]
  · exact Or.inl rfl
  · exact Or.inr (Or.inl rfl)
  · exact Or.inr (Or.inr (Or.inl rfl))
  · exact Or.inr (Or.inr (Or.inr rfl))

theorem flPreprocessPixel_eq (p : Pixel) :
    flPreprocessPixel p =
      ⟨enhanceGray (grayOf p.r p.g p.b), enhanceGray (grayOf p.r p.g p.b),
        enhanceGray (grayOf p.r p.g p.b), p.a⟩ := by
  unfold flPreprocessPixel enhanceGray
  rfl

/-- The exact-rounding formula of claim C6, evaluated at RGB (0, 204, 68):
the exact luma is 127.5, so exact half-up rounding gives g = 128 and
e = 178. -/
theorem specPreprocessPixel_at_tie :
    specPreprocessPixel ⟨0, 204, 68, 255⟩ = ⟨178, 178, 178, 255⟩ := by
  have h : jsRound ((0.299 : ℚ) * ((0 : ℕ) : ℚ) + (0.587 : ℚ) * ((204 : ℕ) : ℚ)
      + (0.114 : ℚ) * ((68 : ℕ) : ℚ)) = 128 := by
    unfold jsRound
    have harg : (0.299 : ℚ) * ((0 : ℕ) : ℚ) + (0.587 : ℚ) * ((204 : ℕ) : ℚ)
        + (0.114 : ℚ) * ((68 : ℕ) : ℚ) + 1/2 = ((128 : ℤ) : ℚ) := by
      push_cast
      norm_num
    rw [harg, Int.floor_intCast]
  unfold specPreprocessPixel
  dsimp only
  rw [h]
  decide

/-! ## Claim theorems -/

/-- C1: the validator accepts (and a `DetectedCard` is stored) if and only
if the recognized text contains a 16-digit run grouped as four blocks of
four digits with at most one single whitespace character between consecutive
blocks AND the confidence is strictly greater than 60; the digits of any
match always number exactly 16 after removing whitespace, and confidence
exactly 60 rejects. -/
theorem validator_accepts_iff (t : List Char) (c : ℚ) :
    ((validateCard t c).isSome = true ↔ HasCardPattern t ∧ 60 < c)
    ∧ validateCard t 60 = none
    ∧ (∀ m, findCardMatch t = some m → (stripWs m).length = 16) := by
  refine ⟨validateCard_isSome_iff, ?_, ?_⟩
  · unfold validateCard
    cases hf : findCardMatch t with
    | none => rfl
    | some m => simp
  · intro m hm
    obtain ⟨pre, suf, rfl, hsuf⟩ := findCardMatch_sound hm
    exact stripWs_matched hsuf

/-- Witness for C1 at scenario A of the specification: text
`4111 1111 1111 1111` with confidence 75 is accepted, and the match strips
to exactly 16 digits. -/
theorem validator_accepts_iff_witness :
    (validateCard ("4111 1111 1111 1111".toList) 75).isSome = true
    ∧ (stripWs ("4111 1111 1111 1111".toList)).length = 16 := by
  have h := validator_accepts_iff ("4111 1111 1111 1111".toList) 75
  constructor
  · refine h.1.mpr ⟨⟨[], "4111".toList, [' '], "1111".toList, [' '], "1111".toList,
      [' '], "1111".toList, [], by decide, ⟨by decide, by decide⟩,
      Or.inr ⟨' ', rfl, by decide⟩, ⟨by decide, by decide⟩,
      Or.inr ⟨' ', rfl, by decide⟩, ⟨by decide, by decide⟩,
      Or.inr ⟨' ', rfl, by decide⟩, ⟨by decide, by decide⟩⟩, by norm_num⟩
  · exact h.2.2 ("4111 1111 1111 1111".toList) (by decide)

/-- C6 counterexample: at RGB (0, 204, 68) the exact luma is 127.5; the
program's double-precision sum falls just below the tie, so `Math.round`
gives 127 and the output pixel is 77, while the claim's exact rounding gives
128 and output 178. -/
theorem preprocess_formula_counterexample :
    preprocessImage (flattenRaster [⟨0, 204, 68, 255⟩]) = [77, 77, 77, 255]
    ∧ flattenRaster ([(⟨0, 204, 68, 255⟩ : Pixel)].map specPreprocessPixel)
      = [178, 178, 178, 255]
    ∧ preprocessImage (flattenRaster [⟨0, 204, 68, 255⟩])
      ≠ flattenRaster ([(⟨0, 204, 68, 255⟩ : Pixel)].map specPreprocessPixel) := by
  have hprog : preprocessImage (flattenRaster [⟨0, 204, 68, 255⟩]) = [77, 77, 77, 255] := by
    decide
  have hspec : flattenRaster ([(⟨0, 204, 68, 255⟩ : Pixel)].map specPreprocessPixel)
      = [178, 178, 178, 255] := by
    rw [List.map_cons, List.map_nil, specPreprocessPixel_at_tie]
    rfl
  refine ⟨hprog, hspec, ?_⟩
  rw [hprog, hspec]
  decide

/-- C6 (amended): preprocessing maps the flat RGBA data of a raster to the
flat RGBA data of the raster obtained by writing to every pixel's three
color channels the single contrast-stretched value of the gray level g,
where g is `Math.round` of the double-precision evaluation of
0.299·R + 0.587·G + 0.114·B — which at floating-point ties can be one below
the exactly rounded luma. -/
theorem preprocess_pure_grayscale (l : List Pixel) :
    preprocessImage (flattenRaster l) = flattenRaster (l.map flPreprocessPixel) := by
  induction l with
  | nil => rfl
  | cons p rest ih =>
    simp only [flattenRaster, preprocessImage, List.map_cons, flPreprocessPixel_eq]
    rw [ih]

/-- C7 counterexample: preprocessing is not idempotent.  A uniform raster of
luma 100 maps to 50 under one application and to 0 under a second one. -/
theorem preprocess_not_idempotent :
    preprocessImage (preprocessImage (flattenRaster [⟨100, 100, 100, 255⟩])) ≠
      preprocessImage (flattenRaster [⟨100, 100, 100, 255⟩]) := by decide

/-- C7 (amended): preprocessing the same input twice is deterministic, but
applying preprocessing to its own output reproduces that output exactly when
every input pixel's gray value (the program's rounded double-precision luma)
is at most 50 or at least 205 — that is, when every enhanced value is
already saturated at 0 or 255. -/
theorem preprocess_twice_iff (l : List Pixel) :
    preprocessImage (preprocessImage (flattenRaster l)) = preprocessImage (flattenRaster l)
      ↔ ∀ p ∈ l, grayOf p.r p.g p.b ≤ 50 ∨ 205 ≤ grayOf p.r p.g p.b := by
  induction l with
  | nil => simp [flattenRaster, preprocessImage]
  | cons p rest ih =>
    simp only [flattenRaster, preprocessImage, grayOf_enhance, List.forall_mem_cons,
      List.cons.injEq, enhanceGray_fix_iff, ih]
    tauto

/-- C2 (the code evaluated at the failing input): a tick with a ready
1280×720 frame whose PNG encoding hands the callback a null blob ends with
the busy guard still set, and from that state every subsequent tick — with
any environment whatsoever — is skipped without clearing the guard. -/
theorem blob_null_sticks_guard :
    processFrame ⟨true, true, 2, 1280, 720, false, none, .error (), 0⟩
        ⟨false, none⟩ = ⟨true, none⟩
    ∧ (∀ env, processFrame env ⟨true, none⟩ = ⟨true, none⟩) := by
  constructor
  · rfl
  · intro env
    unfold processFrame
    simp

theorem jsStartsWith_local : jsStartsWith "/wasm/worker.min.js" "http" = false := by decide

theorem jsStartsWith_jsdelivr :
    jsStartsWith "https://cdn.jsdelivr.net/npm/tesseract.js@5/dist/worker.min.js" "http" = true := by
  decide

theorem jsStartsWith_unpkg :
    jsStartsWith "https://unpkg.com/tesseract.js@5/dist/worker.min.js" "http" = true := by
  decide

theorem initWorker_construction_error (env : InitEnv) (s : OCRModelState) (msg : String)
    (hce : env.construction = .error msg)
    (hinv : (initWorker env s).constructorInvoked = true) :
    ∃ probed, initWorker env s
      = handleInitFailure env { s with error := "", isInitializingOCR := true }
          s.ocrRetryCount msg probed true := by
  rcases selectedConfig_cases s.ocrRetryCount with hc4 | hc4 | hc4 | hc4
  · exact ⟨[], by simp [initWorker, hc4, jsStartsWith_local, runConstruction, hce]⟩
  · cases hpb : env.checkUrlAccessibility
        "https://cdn.jsdelivr.net/npm/tesseract.js@5/dist/worker.min.js"
        && env.checkUrlAccessibility
        "https://cdn.jsdelivr.net/npm/tesseract.js-core@5/tesseract-core-simd.wasm.js" with
    | true =>
      refine ⟨["https://cdn.jsdelivr.net/npm/tesseract.js@5/dist/worker.min.js",
        "https://cdn.jsdelivr.net/npm/tesseract.js-core@5/tesseract-core-simd.wasm.js"], ?_⟩
      simp [initWorker, hc4, jsStartsWith_jsdelivr, hpb, runConstruction, hce]
    | false =>
      have hfalse : (initWorker env s).constructorInvoked = false := by
        simp [initWorker, hc4, jsStartsWith_jsdelivr, hpb, handleInitFailure_invoked]
      rw [hfalse] at hinv
      exact Bool.noConfusion hinv
  · cases hpb : env.checkUrlAccessibility
        "https://unpkg.com/tesseract.js@5/dist/worker.min.js"
        && env.checkUrlAccessibility
        "https://unpkg.com/tesseract.js-core@5/tesseract-core-simd.wasm.js" with
    | true =>
      refine ⟨["https://unpkg.com/tesseract.js@5/dist/worker.min.js",
        "https://unpkg.com/tesseract.js-core@5/tesseract-core-simd.wasm.js"], ?_⟩
      simp [initWorker, hc4, jsStartsWith_unpkg, hpb, runConstruction, hce]
    | false =>
      have hfalse : (initWorker env s).constructorInvoked = false := by
        simp [initWorker, hc4, jsStartsWith_unpkg, hpb, handleInitFailure_invoked]
      rw [hfalse] at hinv
      exact Bool.noConfusion hinv
  · exact ⟨[], by simp [initWorker, hc4, runConstruction, hce]⟩

theorem initWorker_probe_fail (env : InitEnv) (s : OCRModelState) (wp : String)
    (hwp : (selectedConfig s.ocrRetryCount).workerPath = some wp)
    (hstart : jsStartsWith wp "http" = true)
    (hfail : env.checkUrlAccessibility wp = false
      ∨ env.checkUrlAccessibility ((selectedConfig s.ocrRetryCount).corePath.getD "") = false) :
    initWorker env s
      = handleInitFailure env { s with error := "", isInitializingOCR := true }
          s.ocrRetryCount
          (probeFailureMessage (env.checkUrlAccessibility wp)
            (env.checkUrlAccessibility ((selectedConfig s.ocrRetryCount).corePath.getD "")))
          [wp, (selectedConfig s.ocrRetryCount).corePath.getD ""] false := by
  rcases selectedConfig_cases s.ocrRetryCount with hc4 | hc4 | hc4 | hc4 <;>
    rw [hc4] at hwp hfail ⊢ <;> simp only [Option.some.injEq] at hwp
  · subst hwp; rw [jsStartsWith_local] at hstart; exact Bool.noConfusion hstart
  · subst hwp
    have hpb : (env.checkUrlAccessibility
        "https://cdn.jsdelivr.net/npm/tesseract.js@5/dist/worker.min.js"
        && env.checkUrlAccessibility
        "https://cdn.jsdelivr.net/npm/tesseract.js-core@5/tesseract-core-simd.wasm.js") = false := by
      simp only [Option.getD] at hfail
      rcases hfail with h | h <;> simp [h]
    simp [initWorker, hc4, jsStartsWith_jsdelivr, hpb]
  · subst hwp
    have hpb : (env.checkUrlAccessibility
        "https://unpkg.com/tesseract.js@5/dist/worker.min.js"
        && env.checkUrlAccessibility
        "https://unpkg.com/tesseract.js-core@5/tesseract-core-simd.wasm.js") = false := by
      simp only [Option.getD] at hfail
      rcases hfail with h | h <;> simp [h]
    simp [initWorker, hc4, jsStartsWith_unpkg, hpb]
  · exact Option.noConfusion hwp

theorem initWorker_remote_probes (env : InitEnv) (s : OCRModelState) (wp : String)
    (hwp : (selectedConfig s.ocrRetryCount).workerPath = some wp)
    (hstart : jsStartsWith wp "http" = true) :
    (initWorker env s).probedUrls
      = [wp, (selectedConfig s.ocrRetryCount).corePath.getD ""] := by
  rcases selectedConfig_cases s.ocrRetryCount with hc4 | hc4 | hc4 | hc4 <;>
    rw [hc4] at hwp ⊢ <;> simp only [Option.some.injEq] at hwp
  · subst hwp; rw [jsStartsWith_local] at hstart; exact Bool.noConfusion hstart
  · subst hwp
    cases hpb : env.checkUrlAccessibility
        "https://cdn.jsdelivr.net/npm/tesseract.js@5/dist/worker.min.js"
        && env.checkUrlAccessibility
        "https://cdn.jsdelivr.net/npm/tesseract.js-core@5/tesseract-core-simd.wasm.js" <;>
      simp [initWorker, hc4, jsStartsWith_jsdelivr, hpb, runConstruction_probed,
        handleInitFailure_probed]
  · subst hwp
    cases hpb : env.checkUrlAccessibility
        "https://unpkg.com/tesseract.js@5/dist/worker.min.js"
        && env.checkUrlAccessibility
        "https://unpkg.com/tesseract.js-core@5/tesseract-core-simd.wasm.js" <;>
      simp [initWorker, hc4, jsStartsWith_unpkg, hpb, runConstruction_probed,
        handleInitFailure_probed]
  · exact Option.noConfusion hwp

theorem initWorker_no_remote_no_probe (env : InitEnv) (s : OCRModelState)
    (h : ∀ wp, (selectedConfig s.ocrRetryCount).workerPath = some wp →
      jsStartsWith wp "http" = false) :
    (initWorker env s).probedUrls = [] := by
  rcases selectedConfig_cases s.ocrRetryCount with hc4 | hc4 | hc4 | hc4
  · simp [initWorker, hc4, jsStartsWith_local, runConstruction_probed]
  · have := h _ (by rw [hc4])
    rw [jsStartsWith_jsdelivr] at this
    exact Bool.noConfusion this
  · have := h _ (by rw [hc4])
    rw [jsStartsWith_unpkg] at this
    exact Bool.noConfusion this
  · simp [initWorker, hc4, runConstruction_probed]

/-- C3: the initialization attempt selects fallback tier index
min(retryCount, tierCount − 1) from the four-tier configuration list; in
particular indices 0,1,2,3,3,3 for retry counts 0,1,2,3,4,100, and every
retry count from 3 on selects the bundled default tier. -/
theorem tier_selection :
    workerConfigs.length = 4
    ∧ (∀ r, selectedTierIndex r = min r 3)
    ∧ selectedTierIndex 0 = 0 ∧ selectedTierIndex 1 = 1 ∧ selectedTierIndex 2 = 2
    ∧ selectedTierIndex 3 = 3 ∧ selectedTierIndex 4 = 3 ∧ selectedTierIndex 100 = 3
    ∧ (∀ k, selectedConfig (3 + k) = ⟨"Default bundled", none, none, none⟩) := by
  refine ⟨rfl, fun r => rfl, rfl, rfl, rfl, rfl, rfl, rfl, fun k => ?_⟩
  unfold selectedConfig selectedTierIndex
  have h4 : workerConfigs.length - 1 = 3 := rfl
  have hmin : min (3 + k) (workerConfigs.length - 1) = 3 := by rw [h4]; omega
  rw [hmin]
  rfl

/-- C4: on an initialization failure while mounted, a retry count below 3
schedules another attempt after the fixed 2000 ms (2 × 1000 ms) backoff,
the fired backoff increments the retry count, and no terminal error is
surfaced; at retry count 3 no retry is scheduled and the surfaced terminal
error names 4 attempts and carries the last underlying message.  Both probe
failures and construction failures reach this catch block. -/
theorem retry_backoff_policy (env : InitEnv) (s : OCRModelState) (msg : String)
    (hm : env.isMounted = true) :
    (∀ probed invoked,
      (s.ocrRetryCount < 3 →
        handleInitFailure env { s with error := "", isInitializingOCR := true }
            s.ocrRetryCount msg probed invoked
          = ⟨{ s with error := "", isInitializingOCR := true }, probed, invoked, some 2000, false⟩
        ∧ (fireScheduledRetry { s with error := "", isInitializingOCR := true }).ocrRetryCount
            = s.ocrRetryCount + 1
        ∧ (2000 : ℕ) = 2 * 1000)
      ∧ (s.ocrRetryCount = 3 →
        (handleInitFailure env { s with error := "", isInitializingOCR := true }
            s.ocrRetryCount msg probed invoked).scheduledRetryDelayMs = none
        ∧ (handleInitFailure env { s with error := "", isInitializingOCR := true }
            s.ocrRetryCount msg probed invoked).state.error
          = "Failed to initialize OCR engine after 4 attempts: " ++ msg
        ∧ (∃ a c, (handleInitFailure env { s with error := "", isInitializingOCR := true }
            s.ocrRetryCount msg probed invoked).state.error = a ++ ("4" ++ c))
        ∧ (∃ a, (handleInitFailure env { s with error := "", isInitializingOCR := true }
            s.ocrRetryCount msg probed invoked).state.error = a ++ msg)
        ∧ (handleInitFailure env { s with error := "", isInitializingOCR := true }
            s.ocrRetryCount msg probed invoked).state.isInitializingOCR = false))
    ∧ (env.construction = .error msg → (initWorker env s).constructorInvoked = true →
        ∃ probed, initWorker env s
          = handleInitFailure env { s with error := "", isInitializingOCR := true }
              s.ocrRetryCount msg probed true)
    ∧ (∀ wp, (selectedConfig s.ocrRetryCount).workerPath = some wp →
        jsStartsWith wp "http" = true →
        (env.checkUrlAccessibility wp = false
          ∨ env.checkUrlAccessibility ((selectedConfig s.ocrRetryCount).corePath.getD "") = false) →
        initWorker env s
          = handleInitFailure env { s with error := "", isInitializingOCR := true }
              s.ocrRetryCount
              (probeFailureMessage (env.checkUrlAccessibility wp)
                (env.checkUrlAccessibility ((selectedConfig s.ocrRetryCount).corePath.getD "")))
              [wp, (selectedConfig s.ocrRetryCount).corePath.getD ""] false) := by
  have hterm : terminalErrorMessage 3 msg
      = "Failed to initialize OCR engine after 4 attempts: " ++ msg := rfl
  refine ⟨fun probed invoked => ⟨fun hr => ?_, fun hr => ?_⟩,
    initWorker_construction_error env s msg, initWorker_probe_fail env s⟩
  · exact ⟨by simp [handleInitFailure, hm, hr], rfl, rfl⟩
  · have hred : handleInitFailure env { s with error := "", isInitializingOCR := true }
        s.ocrRetryCount msg probed invoked
        = ⟨{ s with error := terminalErrorMessage 3 msg, isInitializingOCR := false },
            probed, invoked, none, false⟩ := by
      simp [handleInitFailure, hm, hr]
    rw [hred]
    refine ⟨rfl, hterm, ?_, ?_, rfl⟩
    · refine ⟨"Failed to initialize OCR engine after ", " attempts: " ++ msg, ?_⟩
      rw [hterm, ← String.append_assoc, ← String.append_assoc]
      rw [show ("Failed to initialize OCR engine after " ++ "4" ++ " attempts: " : String)
          = "Failed to initialize OCR engine after 4 attempts: " from by decide]
    · exact ⟨"Failed to initialize OCR engine after 4 attempts: ", hterm⟩

/-- Witness for C4: with retry count 3 and a failing construction, the
terminal message is exactly the expected string; with retry count 1 the
backoff of 2000 ms is scheduled and no error is surfaced. -/
theorem retry_backoff_policy_witness :
    (handleInitFailure ⟨fun _ => true, .error "boom", true⟩
        ⟨none, true, 3, ""⟩ 3 "boom" [] true).state.error
      = "Failed to initialize OCR engine after 4 attempts: boom"
    ∧ (handleInitFailure ⟨fun _ => true, .error "boom", true⟩
        ⟨none, true, 1, ""⟩ 1 "boom" [] true).scheduledRetryDelayMs = some 2000 := by
  have h3 := retry_backoff_policy ⟨fun _ => true, .error "boom", true⟩
    ⟨none, true, 3, ""⟩ "boom" rfl
  have h1 := retry_backoff_policy ⟨fun _ => true, .error "boom", true⟩
    ⟨none, true, 1, ""⟩ "boom" rfl
  constructor
  · exact ((h3.1 [] true).2 rfl).2.1
  · rw [((h1.1 [] true).1 (by norm_num)).1]

/-- C8: when the selected tier's worker path is scheme-qualified, both the
worker and core URLs are probed, and a failing probe means the backend
constructor is never invoked; tiers with local or absent paths probe
nothing. -/
theorem probe_policy (env : InitEnv) (s : OCRModelState) :
    (∀ wp, (selectedConfig s.ocrRetryCount).workerPath = some wp →
      jsStartsWith wp "http" = true →
      (initWorker env s).probedUrls
          = [wp, (selectedConfig s.ocrRetryCount).corePath.getD ""]
      ∧ ((env.checkUrlAccessibility wp = false
          ∨ env.checkUrlAccessibility ((selectedConfig s.ocrRetryCount).corePath.getD "") = false) →
        (initWorker env s).constructorInvoked = false))
    ∧ ((∀ wp, (selectedConfig s.ocrRetryCount).workerPath = some wp →
        jsStartsWith wp "http" = false) →
      (initWorker env s).probedUrls = []) := by
  refine ⟨fun wp hwp hstart => ⟨initWorker_remote_probes env s wp hwp hstart, fun hfail => ?_⟩,
    initWorker_no_remote_no_probe env s⟩
  rw [initWorker_probe_fail env s wp hwp hstart hfail]
  exact handleInitFailure_invoked ..

/-- Witness for C8: at retry count 1 (the jsDelivr tier) with all probes
failing, both remote URLs are probed and the constructor is not invoked;
at retry count 0 (the local tier) nothing is probed. -/
theorem probe_policy_witness :
    (initWorker ⟨fun _ => false, .ok 7, true⟩ ⟨none, true, 1, ""⟩).probedUrls
      = ["https://cdn.jsdelivr.net/npm/tesseract.js@5/dist/worker.min.js",
          "https://cdn.jsdelivr.net/npm/tesseract.js-core@5/tesseract-core-simd.wasm.js"]
    ∧ (initWorker ⟨fun _ => false, .ok 7, true⟩ ⟨none, true, 1, ""⟩).constructorInvoked = false
    ∧ (initWorker ⟨fun _ => false, .ok 7, true⟩ ⟨none, true, 0, ""⟩).probedUrls = [] := by
  have h1 := (probe_policy ⟨fun _ => false, .ok 7, true⟩ ⟨none, true, 1, ""⟩).1
    "https://cdn.jsdelivr.net/npm/tesseract.js@5/dist/worker.min.js" rfl (by decide)
  have h0 := (probe_policy ⟨fun _ => false, .ok 7, true⟩ ⟨none, true, 0, ""⟩).2
  refine ⟨h1.1, h1.2 (Or.inl rfl), h0 ?_⟩
  intro wp hwp
  simp only [show selectedConfig 0 = ⟨"Local WASM files", some "/wasm/worker.min.js",
    some "/wasm/tesseract-core-simd.wasm.js", none⟩ from rfl, Option.some.injEq] at hwp
  subst hwp
  exact jsStartsWith_local

/-- C9: a construction that completes successfully after the component has
unmounted terminates the fresh backend handle instead of installing it; the
stored worker handle is unchanged. -/
theorem late_success_released (env : InitEnv) (s : OCRModelState) (handle : ℕ)
    (hum : env.isMounted = false) (hok : env.construction = .ok handle)
    (hinv : (initWorker env s).constructorInvoked = true) :
    (initWorker env s).workerTerminated = true
    ∧ (initWorker env s).state.tesseractWorker = s.tesseractWorker := by
  rcases selectedConfig_cases s.ocrRetryCount with hc4 | hc4 | hc4 | hc4
  · constructor <;>
      simp [initWorker, hc4, jsStartsWith_local,
        runConstruction_unmounted env _ _ _ handle hum hok]
  · cases hpb : env.checkUrlAccessibility
        "https://cdn.jsdelivr.net/npm/tesseract.js@5/dist/worker.min.js"
        && env.checkUrlAccessibility
        "https://cdn.jsdelivr.net/npm/tesseract.js-core@5/tesseract-core-simd.wasm.js" with
    | true =>
      constructor <;>
        simp [initWorker, hc4, jsStartsWith_jsdelivr, hpb,
          runConstruction_unmounted env _ _ _ handle hum hok]
    | false =>
      have hfalse : (initWorker env s).constructorInvoked = false := by
        simp [initWorker, hc4, jsStartsWith_jsdelivr, hpb, handleInitFailure_invoked]
      rw [hfalse] at hinv
      exact Bool.noConfusion hinv
  · cases hpb : env.checkUrlAccessibility
        "https://unpkg.com/tesseract.js@5/dist/worker.min.js"
        && env.checkUrlAccessibility
        "https://unpkg.com/tesseract.js-core@5/tesseract-core-simd.wasm.js" with
    | true =>
      constructor <;>
        simp [initWorker, hc4, jsStartsWith_unpkg, hpb,
          runConstruction_unmounted env _ _ _ handle hum hok]
    | false =>
      have hfalse : (initWorker env s).constructorInvoked = false := by
        simp [initWorker, hc4, jsStartsWith_unpkg, hpb, handleInitFailure_invoked]
      rw [hfalse] at hinv
      exact Bool.noConfusion hinv
  · constructor <;>
      simp [initWorker, hc4,
        runConstruction_unmounted env _ _ _ handle hum hok]

/-- Witness for C9: a successful construction on the bundled tier after the
component unmounted is terminated and no handle is installed. -/
theorem late_success_released_witness :
    (initWorker ⟨fun _ => true, .ok 42, false⟩ ⟨none, true, 5, ""⟩).workerTerminated = true
    ∧ (initWorker ⟨fun _ => true, .ok 42, false⟩ ⟨none, true, 5, ""⟩).state.tesseractWorker
      = none := by
  have h := late_success_released ⟨fun _ => true, .ok 42, false⟩ ⟨none, true, 5, ""⟩
    42 rfl rfl (by rfl)
  exact ⟨h.1, h.2⟩

/-- C5: for nonzero frames, extraction returns the crop at vertical offset
floor(0.4·h) whose height is max(1, floor(0.3·h)), shrunk (but never below
1) if offset plus height would exceed h; the crop always fits inside the
frame; zero-area frames are a hard error. -/
theorem extract_region_spec (w h : ℕ) :
    (0 < w → 0 < h →
      extractCardNumberRegion w h
        = .ok ⟨w, 4 * h / 10,
            if 4 * h / 10 + max 1 (3 * h / 10) > h
            then max 1 (h - 4 * h / 10) else max 1 (3 * h / 10)⟩
      ∧ (∀ reg, extractCardNumberRegion w h = .ok reg →
          1 ≤ reg.height ∧ reg.y = 4 * h / 10 ∧ reg.y + reg.height ≤ h))
    ∧ ((w = 0 ∨ h = 0) →
      extractCardNumberRegion w h
        = .error "Invalid canvas provided to extractCardNumberRegion") := by
  constructor
  · intro hw hh
    have heq : extractCardNumberRegion w h
        = .ok ⟨w, 4 * h / 10,
            if 4 * h / 10 + max 1 (3 * h / 10) > h
            then max 1 (h - 4 * h / 10) else max 1 (3 * h / 10)⟩ := by
      unfold extractCardNumberRegion
      rw [if_neg]
      simp [Nat.pos_iff_ne_zero.mp hw, Nat.pos_iff_ne_zero.mp hh]
    refine ⟨heq, fun reg hreg => ?_⟩
    rw [heq] at hreg
    simp only [Except.ok.injEq] at hreg
    subst hreg
    refine ⟨?_, rfl, ?_⟩ <;> dsimp only <;> split_ifs <;> omega
  · rintro (rfl | rfl) <;> simp [extractCardNumberRegion]

/-- Witness for C5: a 1280×720 frame crops at y = 288 with height 216, and a
zero-height frame errors. -/
theorem extract_region_spec_witness :
    extractCardNumberRegion 1280 720 = .ok ⟨1280, 288, 216⟩
    ∧ extractCardNumberRegion 1280 0
      = .error "Invalid canvas provided to extractCardNumberRegion" := by
  have h1 := (extract_region_spec 1280 720).1 (by norm_num) (by norm_num)
  have h2 := (extract_region_spec 1280 0).2 (Or.inr rfl)
  exact ⟨by rw [h1.1]; rfl, h2⟩

/-- C10 counterexample: the text `1111 2222 3333 4444 12345678901234567`
contains a run of 17 consecutive digits and the confidence 75 exceeds 60,
yet the stored number is the earlier spaced match, not the first 16 digits
of that run. -/
theorem long_run_counterexample :
    ("1111 2222 3333 4444 12345678901234567".toList
        = "1111 2222 3333 4444 ".toList ++ "12345678901234567".toList ++ ([] : List Char))
    ∧ ("12345678901234567".toList).length = 17
    ∧ (∀ ch ∈ "12345678901234567".toList, isDigitChar ch = true)
    ∧ (60 : ℚ) < 75
    ∧ validateCard ("1111 2222 3333 4444 12345678901234567".toList) 75
        = some ("1111222233334444".toList)
    ∧ "1111222233334444".toList ≠ ("12345678901234567".toList).take 16 := by
  refine ⟨by decide, by decide, by decide, by norm_num, by decide, by decide⟩

/-- C10 (amended): any recognized text containing a run of at least 17
consecutive digits is accepted whenever the confidence exceeds 60 — the
16-digit length check never rejects it because the pattern captures exactly
16 digits of the run; and when the run begins the text (so the leftmost
match starts inside it), the stored number is exactly the run's first 16
digits. -/
theorem long_run_accepted (pre run post : List Char) (c : ℚ)
    (hd : ∀ ch ∈ run, isDigitChar ch = true) (h17 : 17 ≤ run.length) (hc : 60 < c) :
    (validateCard (pre ++ (run ++ post)) c).isSome = true
    ∧ validateCard (run ++ post) c = some (run.take 16) := by
  have hb1 : IsBlock (run.take 4) := by
    refine ⟨by rw [List.length_take]; omega, fun ch hch => hd ch (List.take_subset _ _ hch)⟩
  have hb2 : IsBlock ((run.drop 4).take 4) := by
    refine ⟨by rw [List.length_take, List.length_drop]; omega,
      fun ch hch => hd ch (List.drop_subset _ _ (List.take_subset _ _ hch))⟩
  have hb3 : IsBlock ((run.drop 8).take 4) := by
    refine ⟨by rw [List.length_take, List.length_drop]; omega,
      fun ch hch => hd ch (List.drop_subset _ _ (List.take_subset _ _ hch))⟩
  have hb4 : IsBlock ((run.drop 12).take 4) := by
    refine ⟨by rw [List.length_take, List.length_drop]; omega,
      fun ch hch => hd ch (List.drop_subset _ _ (List.take_subset _ _ hch))⟩
  have hsplit : run = run.take 4 ++ ((run.drop 4).take 4 ++ ((run.drop 8).take 4
      ++ ((run.drop 12).take 4 ++ run.drop 16))) := by
    have e1 := List.take_append_drop 4 run
    have e2 := List.drop_take_append_drop run 4 4
    have e3 := List.drop_take_append_drop run 8 4
    have e4 := List.drop_take_append_drop run 12 4
    norm_num at e2 e3 e4
    rw [← e2, ← e3, ← e4] at e1
    exact e1.symm
  have htake16 : run.take 16 = run.take 4 ++ ((run.drop 4).take 4
      ++ ((run.drop 8).take 4 ++ (run.drop 12).take 4)) := by
    have hL : (run.take 4 ++ ((run.drop 4).take 4
        ++ ((run.drop 8).take 4 ++ (run.drop 12).take 4))).length = 16 := by
      simp only [List.length_append, List.length_take, List.length_drop]
      omega
    conv_lhs => rw [hsplit]
    rw [show run.take 4 ++ ((run.drop 4).take 4 ++ ((run.drop 8).take 4
        ++ ((run.drop 12).take 4 ++ run.drop 16)))
        = (run.take 4 ++ ((run.drop 4).take 4 ++ ((run.drop 8).take 4
          ++ (run.drop 12).take 4))) ++ run.drop 16 by simp [List.append_assoc]]
    rw [← hL, List.take_left]
  have hm : matchCardAt (run ++ post) = some (run.take 16) := by
    have happ := matchCardAt_append (run.drop 16 ++ post) hb1 (Or.inl rfl) hb2 (Or.inl rfl)
      hb3 (Or.inl rfl) hb4
    simp only [List.nil_append] at happ
    have harr : run ++ post = run.take 4 ++ ((run.drop 4).take 4 ++ ((run.drop 8).take 4
        ++ ((run.drop 12).take 4 ++ (run.drop 16 ++ post)))) := by
      conv_lhs => rw [hsplit]
      simp [List.append_assoc]
    rw [harr, happ, htake16]
  have hstrip16 : stripWs (run.take 16) = run.take 16 := by
    unfold stripWs
    rw [List.filter_eq_self]
    intro ch hch
    simp [digit_not_space ch (hd ch (List.take_subset _ _ hch))]
  have hlen16 : (run.take 16).length = 16 := by rw [List.length_take]; omega
  constructor
  · refine validateCard_isSome_iff.mpr ⟨⟨pre, run.take 4, [], (run.drop 4).take 4, [],
      (run.drop 8).take 4, [], (run.drop 12).take 4, run.drop 16 ++ post, ?_,
      hb1, Or.inl rfl, hb2, Or.inl rfl, hb3, Or.inl rfl, hb4⟩, hc⟩
    conv_lhs => rw [hsplit]
    simp [List.append_assoc]
  · have hfind := findCardMatch_head_some hm
    unfold validateCard
    rw [hfind]
    simp only [hstrip16, hlen16, if_pos hc, if_true]

/-- Witness for the amended C10: a 17-digit run embedded after a non-digit
prefix is accepted at confidence 99, and with the run leading the text the
stored number is the run's first 16 digits. -/
theorem long_run_accepted_witness :
    (validateCard ("ab".toList ++ ("12345678901234567".toList ++ "cd".toList)) 99).isSome = true
    ∧ validateCard ("12345678901234567".toList ++ "cd".toList) 99
      = some ("1234567890123456".toList) := by
  have h := long_run_accepted ("ab".toList) ("12345678901234567".toList) ("cd".toList) 99
    (by decide) (by decide) (by norm_num)
  refine ⟨h.1, ?_⟩
  rw [h.2]
  rfl
